import Mathlib

/-!
Verification of the log-event reconstruction and test-run aggregation
pipeline of consume_logs.py (functions parse_log_file, extract_run_header,
initialize_test_case, extract_request_data, process_frame_data,
extract_success_data, finalize_test_case, generate_summary).

Modelling conventions:
- JSON values decoded by json.loads are modelled by the inductive JValue.
  Python maps a JSON null to None, so an absent key and a null value are
  both represented by JValue.null when read through dict.get.  Objects are
  association lists; json.loads resolves duplicate keys by keeping the
  last binding, which dictFind? reproduces.
- Python floats are modelled as rationals (Rat); the arithmetic performed
  by the source (timestamp differences, sums, divisions) is exact over the
  values the claims are about.
- Exceptions that the source can actually raise and does not catch
  (AttributeError from calling a method on a non-string / non-dict value,
  TypeError from subtracting an offset-naive from an offset-aware
  datetime) are modelled with Except PyError.
- Reading the log file line by line and json.loads are modelled by giving
  parse_log_file each line as its parse outcome: none stands for a line
  whose json.loads raises JSONDecodeError, some v for a line that parses
  to the value v.
-/

namespace ConsumeLogs

/-- The runtime errors that the modelled code can raise and that
consume_logs.py does not catch. -/
inductive PyError where
  | attributeError
  | typeError
deriving DecidableEq

/-- A decoded JSON value, as produced by json.loads. -/
inductive JValue where
  | null
  | bool (b : Bool)
  | num (q : Rat)
  | str (s : String)
  | arr (elems : List JValue)
  | obj (entries : List (String × JValue))

/-- Lookup in a decoded JSON object.  Models Python dict lookup on the
dict built by json.loads: with duplicate keys the last binding wins. -/
def dictFind? (kvs : List (String × JValue)) (k : String) : Option JValue :=
  match kvs with
  | [] => none
  | (k1, v) :: rest =>
    match dictFind? rest k with
    | some w => some w
    | none => if k1 == k then some v else none

/-- Models Python dict.get(k): an absent key yields None (JValue.null). -/
def dictGet (kvs : List (String × JValue)) (k : String) : JValue :=
  (dictFind? kvs k).getD .null

/-- Models Python dict.get(k, d) with an explicit default. -/
def dictGetD (kvs : List (String × JValue)) (k : String) (d : JValue) : JValue :=
  (dictFind? kvs k).getD d

/-- Models the Python membership test (k in dict). -/
def hasKey (kvs : List (String × JValue)) (k : String) : Bool :=
  (dictFind? kvs k).isSome

/-- Models the Python comparison (v == s) between a decoded JSON value and
a string literal: true exactly when v is that string. -/
def jStrEq (v : JValue) (t : String) : Bool :=
  match v with
  | .str s => s == t
  | _ => false

/-- Models Python truthiness of a decoded JSON value: None, False, 0,
the empty string, the empty list and the empty dict are falsy. -/
def truthy (v : JValue) : Bool :=
  match v with
  | .null => false
  | .bool b => b
  | .num q => q != 0
  | .str s => s != ""
  | .arr l => !l.isEmpty
  | .obj l => !l.isEmpty

mutual

/-- Models the Python equality test (a == b) on decoded JSON values:
booleans compare equal to the numbers 0 and 1, lists compare elementwise,
and dicts compare by size and key-wise lookup, ignoring order. -/
def pyEq : JValue → JValue → Bool
  | .null, .null => true
  | .bool x, .bool y => x == y
  | .bool x, .num q => (if x then (1 : Rat) else 0) == q
  | .num q, .bool y => q == (if y then (1 : Rat) else 0)
  | .num p, .num q => p == q
  | .str s, .str t => s == t
  | .arr xs, .arr ys => pyEqList xs ys
  | .obj xs, .obj ys => xs.length == ys.length && pyEqObj xs ys
  | _, _ => false

/-- Elementwise Python equality of two JSON arrays. -/
def pyEqList : List JValue → List JValue → Bool
  | [], [] => true
  | x :: xs1, y :: ys1 => pyEq x y && pyEqList xs1 ys1
  | _, _ => false

/-- Key-wise Python equality of JSON objects: every binding of the first
object must be matched by an equal binding in the second. -/
def pyEqObj : List (String × JValue) → List (String × JValue) → Bool
  | [], _ => true
  | (k, v) :: rest, ys =>
    (match dictFind? ys k with
     | some w => pyEq v w
     | none => false) && pyEqObj rest ys

end

/-!
Model of the datetime functionality used by finalize_test_case:
str.replace, datetime.fromisoformat, datetime subtraction and
timedelta.total_seconds.  fromisoformat is modelled after the C
implementation that CPython actually runs (Modules/_datetimemodule.c,
identical in the relevant lines across 3.10 and 3.11): strict ASCII
digit parsing of YYYY-MM-DD, one arbitrary separator character, and a
time parser whose component loop reads one character past each
two-digit component: a colon continues to the next component, a dot
(or, after the seconds component, a colon) starts a fraction of exactly
3 or 6 digits, and when that read lands on the end of the parsed
segment the character is swallowed whatever it is, yielding return
value 1.  The first plus or minus character of the time text splits off
the timezone; without a timezone a return value of 1 (a leftover
character) is an error, while before a timezone sign it is accepted, so
one junk character may sit before the sign.  The timezone text after
the sign must have length 5, 8 or 15 and must itself parse with no
leftover.  Field ranges are validated as by the datetime constructor; a
timezone offset must be strictly smaller than 24 hours in magnitude.
All malformed inputs yield none (a ValueError in Python).  Seconds are
exact rationals.
-/

/-- A parsed Python datetime value.  The utcoffset, when present, is the
timezone offset in microseconds; none models a naive datetime. -/
structure PyDateTime where
  year : Nat
  month : Nat
  day : Nat
  hour : Nat
  minute : Nat
  second : Nat
  microsecond : Nat
  utcoffset : Option Int
deriving DecidableEq

/-- The Gregorian leap-year rule used by the datetime module. -/
def isLeap (y : Nat) : Bool :=
  y % 4 == 0 && (y % 100 != 0 || y % 400 == 0)

/-- Number of days in a month, as validated by the datetime constructor. -/
def daysInMonth (y m : Nat) : Nat :=
  if m == 2 then (if isLeap y then 29 else 28)
  else if m == 4 || m == 6 || m == 9 || m == 11 then 30
  else 31

/-- Days in all years strictly before year y (proleptic Gregorian). -/
def daysBeforeYear (y : Nat) : Nat :=
  (y - 1) * 365 + (y - 1) / 4 + (y - 1) / 400 - (y - 1) / 100

/-- Days in all months of year y strictly before month m. -/
def daysBeforeMonth (y m : Nat) : Nat :=
  (match m with
   | 1 => 0 | 2 => 31 | 3 => 59 | 4 => 90 | 5 => 120 | 6 => 151
   | 7 => 181 | 8 => 212 | 9 => 243 | 10 => 273 | 11 => 304 | _ => 334) +
  (if 2 < m && isLeap y then 1 else 0)

/-- Proleptic Gregorian ordinal of a date, as date.toordinal. -/
def toordinal (y m d : Nat) : Nat :=
  daysBeforeYear y + daysBeforeMonth y m + d

/-- Validating constructor: models datetime(...) together with the
timezone constructor, which requires the offset magnitude to stay
strictly below 24 hours. -/
def mkDatetime (y m d h mi sec us : Nat) (tz : Option Int) : Option PyDateTime :=
  if 1 ≤ y && y ≤ 9999 && 1 ≤ m && m ≤ 12 && 1 ≤ d && d ≤ daysInMonth y m &&
     h ≤ 23 && mi ≤ 59 && sec ≤ 59 && us ≤ 999999 &&
     (match tz with
      | none => true
      | some off => off.natAbs < 86400000000) then
    some ⟨y, m, d, h, mi, sec, us, tz⟩
  else none

/-- Parses exactly n ASCII digits from the front of the character list,
returning their value and the remaining characters. -/
def parseDigits : Nat → List Char → Option (Nat × List Char)
  | 0, cs => some (0, cs)
  | _ + 1, [] => none
  | n + 1, c :: cs =>
    if c.isDigit then
      (parseDigits n cs).map fun p => (p.1 + (c.toNat - 48) * 10 ^ n, p.2)
    else none

/-- Parses the date part YYYY-MM-DD and returns the remaining characters. -/
def parse_isoformat_date (cs : List Char) : Option (Nat × Nat × Nat × List Char) :=
  match parseDigits 4 cs with
  | none => none
  | some (y, r1) =>
    match r1 with
    | '-' :: r2 =>
      match parseDigits 2 r2 with
      | none => none
      | some (m, r3) =>
        match r3 with
        | '-' :: r4 =>
          match parseDigits 2 r4 with
          | none => none
          | some (d, r5) => some (y, m, d, r5)
        | _ => none
    | _ => none

/-- Parses a fractional-second field of exactly 3 or 6 digits into
microseconds. -/
def parseFrac (cs : List Char) : Option Nat :=
  if cs.length == 3 then (parseDigits 3 cs).map fun p => p.1 * 1000
  else if cs.length == 6 then (parseDigits 6 cs).map fun p => p.1
  else none

/-- Parses HH[:MM[:SS]] with an optional fraction over the segment that
ends at the timezone sign (tzFollows true) or at the end of the string
(tzFollows false), as the C helper parse_hh_mm_ss_ff.  After each
two-digit component the C code reads one more character: when that read
lands at or past the segment end the parse stops and returns the C
return value (0 at the true end of the string, 1 at the timezone sign
or when the read swallowed one arbitrary trailing segment character);
otherwise a colon continues to the next component, a dot (or, once the
seconds are read, a colon, since the loop then merely exits) starts a
fraction of exactly 3 or 6 digits, and anything else is an error. -/
def parse_hh_mm_ss_ff (cs : List Char) (tzFollows : Bool) :
    Option ((Nat × Nat × Nat × Nat) × Nat) :=
  match parseDigits 2 cs with
  | none => none
  | some (h, r1) =>
    match r1 with
    | [] => some ((h, 0, 0, 0), if tzFollows then 1 else 0)
    | [_] => some ((h, 0, 0, 0), 1)
    | '.' :: fs =>
      (parseFrac fs).map fun us => ((h, 0, 0, us), if tzFollows then 1 else 0)
    | ':' :: r2 =>
      match parseDigits 2 r2 with
      | none => none
      | some (m, r3) =>
        match r3 with
        | [] => some ((h, m, 0, 0), if tzFollows then 1 else 0)
        | [_] => some ((h, m, 0, 0), 1)
        | '.' :: fs =>
          (parseFrac fs).map fun us => ((h, m, 0, us), if tzFollows then 1 else 0)
        | ':' :: r4 =>
          match parseDigits 2 r4 with
          | none => none
          | some (s, r5) =>
            match r5 with
            | [] => some ((h, m, s, 0), if tzFollows then 1 else 0)
            | [_] => some ((h, m, s, 0), 1)
            | '.' :: fs =>
              (parseFrac fs).map fun us => ((h, m, s, us), if tzFollows then 1 else 0)
            | ':' :: fs =>
              (parseFrac fs).map fun us => ((h, m, s, us), if tzFollows then 1 else 0)
            | _ => none
        | _ => none
    | _ => none

/-- Parses the time-of-day part with an optional timezone suffix, as the
C parse_isoformat_time: the first plus or minus character splits off the
timezone; without a timezone the components must consume the whole text
(a swallowed leftover character, return value 1, is an error there);
with one, the text after the sign must have length 5, 8 or 15 and must
itself parse with no leftover. -/
def parse_isoformat_time (cs : List Char) :
    Option ((Nat × Nat × Nat × Nat) × Option Int) :=
  match cs.findIdx? (fun c => c == '+' || c == '-') with
  | none =>
    match parse_hh_mm_ss_ff cs false with
    | some (t, 0) => some (t, none)
    | _ => none
  | some i =>
    match parse_hh_mm_ss_ff (cs.take i) true with
    | none => none
    | some (t, _) =>
      match cs.drop i with
      | [] => none
      | sign :: rest =>
        if rest.length == 5 || rest.length == 8 || rest.length == 15 then
          match parse_hh_mm_ss_ff rest false with
          | some ((th, tm, ts, tus), 0) =>
            let mag : Int := (((th * 3600 + tm * 60 + ts) * 1000000 + tus : Nat) : Int)
            some (t, some (if sign == '-' then -mag else mag))
          | _ => none
        else none

/-- Model of datetime.fromisoformat (CPython 3.10): a 10-character date
alone is midnight naive; otherwise one separator character of any kind is
skipped and the rest is parsed as the time of day. -/
def fromisoformat (s : String) : Option PyDateTime :=
  match parse_isoformat_date s.data with
  | none => none
  | some (y, m, d, rest) =>
    match rest with
    | [] => mkDatetime y m d 0 0 0 0 none
    | _ :: tcs =>
      match parse_isoformat_time tcs with
      | none => none
      | some ((h, mi, sec, us), tz) => mkDatetime y m d h mi sec us tz

/-- Microseconds of a datetime since the proleptic origin, ignoring the
timezone. -/
def naiveEpochUs (dt : PyDateTime) : Int :=
  (((toordinal dt.year dt.month dt.day) * 86400 +
    (dt.hour * 3600 + dt.minute * 60 + dt.second) : Nat) : Int) * 1000000 +
  (dt.microsecond : Int)

/-- Models Python datetime subtraction followed by total_seconds: naive
minus naive is the wall-clock difference, aware minus aware compares in
UTC, and mixing naive and aware raises TypeError. -/
def pySub (a b : PyDateTime) : Except PyError Rat :=
  match a.utcoffset, b.utcoffset with
  | none, none =>
    .ok (((naiveEpochUs a - naiveEpochUs b : Int) : Rat) / 1000000)
  | some oa, some ob =>
    .ok ((((naiveEpochUs a - oa) - (naiveEpochUs b - ob) : Int) : Rat) / 1000000)
  | _, _ => .error .typeError

/-- Models the source expression replacing Z by +00:00 via str.replace:
every occurrence of the character Z in the string is replaced. -/
def pyReplaceZ (s : String) : String :=
  ⟨s.data.flatMap fun c => if c == 'Z' then "+00:00".data else [c]⟩

/-- The run_info record built by extract_run_header. -/
structure RunInfo where
  timestamp : JValue
  endpoint_id : JValue
  websocket_url : JValue

/-- The structured request snapshot built by extract_request_data. -/
structure RequestData where
  prompt : JValue
  env_id : JValue
  «where» : JValue
  «when» : JValue
  metric_filters : JValue
  use_vector_search : JValue
  additional_params : List (String × JValue)

/-- One entry of a test case's responses list. -/
structure ResponseEntry where
  status : JValue
  message : JValue
  timestamp : JValue
  data : JValue

/-- One entry of a test case's progress_messages list. -/
structure ProgressEntry where
  message : JValue
  timestamp : JValue
  data : JValue

/-- One entry of a test case's errors list.  The data key is only present
for execution errors recorded from an error frame. -/
structure ErrorEntry where
  type : String
  message : JValue
  timestamp : JValue
  data : Option JValue

/-- The nested scores object of a final result. -/
structure Scores where
  relevance : JValue
  completeness : JValue
  quality : JValue

/-- The final_result record built by extract_success_data. -/
structure FinalResult where
  message : JValue
  timestamp : JValue
  key_findings : JValue
  trends_anomalies : JValue
  recommendations : JValue
  data_quality : JValue
  executive_summary : JValue
  key_metrics : JValue
  alerts : JValue
  context : JValue
  scores : Scores
  evaluation_notes : JValue

/-- A test case under reconstruction.  The source represents the empty
request and final_result dicts of a fresh case as empty dicts; here they
are none until assigned.  The duration is a float or None in the source,
modelled as Option Rat. -/
structure TestCase where
  name : JValue
  session_id : JValue
  start_time : JValue
  end_time : JValue
  duration : Option Rat
  status : String
  request : Option RequestData
  responses : List ResponseEntry
  final_result : Option FinalResult
  errors : List ErrorEntry
  progress_messages : List ProgressEntry

/-- The results dict of parse_log_file: run_info (none models the initial
empty dict) and the completed test cases. -/
structure Results where
  run_info : Option RunInfo
  test_cases : List TestCase

/-- The full state of the reconstruction loop: the results under
construction plus the current open test case. -/
structure FoldState where
  run_info : Option RunInfo
  test_cases : List TestCase
  current : Option TestCase

/-- The summary statistics dict built by generate_summary. -/
structure Summary where
  total_tests : Nat
  successful_tests : Nat
  failed_tests : Nat
  incomplete_tests : Nat
  success_rate : Rat
  total_duration : Rat
  average_duration : Rat
  test_names : List JValue

/-- Model of extract_run_header: projects ts, endpoint_id and url. -/
def extract_run_header (kvs : List (String × JValue)) : RunInfo :=
  { timestamp := dictGet kvs "ts"
    endpoint_id := dictGet kvs "endpoint_id"
    websocket_url := dictGet kvs "url" }

/-- Model of initialize_test_case: a fresh running test case taken from a
connection_opening event. -/
def initialize_test_case (kvs : List (String × JValue)) : TestCase :=
  { name := dictGet kvs "case"
    session_id := dictGet kvs "session"
    start_time := dictGet kvs "ts"
    end_time := .null
    duration := none
    status := "running"
    request := none
    responses := []
    final_result := none
    errors := []
    progress_messages := [] }

/-- The keys excluded from additional_params by extract_request_data.
This is the exclusion list written inline in the source; it contains
session_id although no named field is extracted from that key. -/
def requestKeys : List String :=
  ["prompt", "env_id", "session_id", "where", "when", "metricFilters",
   "useVectorSearch"]

/-- Field projection part of extract_request_data, applied to the request
payload dict. -/
def extract_request_fields (rd : List (String × JValue)) : RequestData :=
  { prompt := dictGet rd "prompt"
    env_id := dictGet rd "env_id"
    «where» := dictGet rd "where"
    «when» := dictGet rd "when"
    metric_filters := dictGetD rd "metricFilters" (.arr [])
    use_vector_search := dictGetD rd "useVectorSearch" (.bool false)
    additional_params := rd.filter fun kv => !(requestKeys.contains kv.1) }

/-- Model of extract_request_data: reads the request key of the log entry
with an empty-dict default; a present non-dict value makes the method
calls on it raise AttributeError. -/
def extract_request_data (kvs : List (String × JValue)) : Except PyError RequestData :=
  match dictFind? kvs "request" with
  | none => .ok (extract_request_fields [])
  | some (.obj rd) => .ok (extract_request_fields rd)
  | some _ => .error .attributeError

/-- Field projection part of extract_success_data, applied to the frame
dict and its data dict. -/
def extract_success_fields (f d : List (String × JValue)) : FinalResult :=
  { message := dictGet f "message"
    timestamp := dictGet f "ts"
    key_findings := dictGet d "key_findings"
    trends_anomalies := dictGet d "trends_anomalies"
    recommendations := dictGet d "recommendations"
    data_quality := dictGet d "data_quality"
    executive_summary := dictGet d "executive_summary"
    key_metrics := dictGet d "key_metrics"
    alerts := dictGet d "alerts"
    context := dictGet d "context"
    scores := { relevance := dictGet d "relevance_score"
                completeness := dictGet d "completeness_score"
                quality := dictGet d "quality_score" }
    evaluation_notes := dictGet d "evaluation_notes" }

/-- Model of extract_success_data: reads the data key of the frame with
an empty-dict default; a present non-dict value raises AttributeError. -/
def extract_success_data (f : List (String × JValue)) : Except PyError FinalResult :=
  match dictFind? f "data" with
  | none => .ok (extract_success_fields f [])
  | some (.obj d) => .ok (extract_success_fields f d)
  | some _ => .error .attributeError

/-- Model of process_frame_data: always append to responses, then branch
on the frame status.  A non-dict frame raises AttributeError. -/
def process_frame_data (tc : TestCase) (frame : JValue) : Except PyError TestCase :=
  match frame with
  | .obj f =>
    let frame_status := dictGet f "status"
    let frame_message := dictGetD f "message" (.str "")
    let frame_timestamp := dictGet f "ts"
    let tc1 := { tc with responses := tc.responses ++
        [{ status := frame_status, message := frame_message,
           timestamp := frame_timestamp, data := dictGet f "data" }] }
    if jStrEq frame_status "progress" then
      .ok { tc1 with progress_messages := tc1.progress_messages ++
          [{ message := frame_message, timestamp := frame_timestamp,
             data := dictGet f "data" }] }
    else if jStrEq frame_status "success" then
      match extract_success_data f with
      | .ok fr => .ok { tc1 with status := "success", final_result := some fr }
      | .error e => .error e
    else if jStrEq frame_status "error" then
      .ok { tc1 with
              status := "error"
              errors := tc1.errors ++
                [{ type := "execution_error", message := frame_message,
                   timestamp := frame_timestamp,
                   data := some (dictGet f "data") }] }
    else .ok tc1
  | _ => .error .attributeError

/-- Duration half of finalize_test_case.  When both timestamps are truthy
the source calls str.replace on each, so a truthy non-string raises
AttributeError; a parse failure is a caught ValueError giving a null
duration; subtracting a naive from an aware datetime raises TypeError. -/
def finalize_duration (tc : TestCase) : Except PyError TestCase :=
  if truthy tc.start_time && truthy tc.end_time then
    match tc.start_time with
    | .str ss =>
      match fromisoformat (pyReplaceZ ss) with
      | none => .ok { tc with duration := none }
      | some d1 =>
        match tc.end_time with
        | .str es =>
          match fromisoformat (pyReplaceZ es) with
          | none => .ok { tc with duration := none }
          | some d2 =>
            match pySub d2 d1 with
            | .ok r => .ok { tc with duration := some r }
            | .error e => .error e
        | _ => .error .attributeError
    | _ => .error .attributeError
  else .ok { tc with duration := none }

/-- Status half of finalize_test_case: a still-running case becomes error
when it has recorded errors, otherwise incomplete. -/
def finalize_status (tc : TestCase) : TestCase :=
  if tc.status == "running" then
    if tc.errors.isEmpty then { tc with status := "incomplete" }
    else { tc with status := "error" }
  else tc

/-- Model of finalize_test_case: the duration computation followed by the
status defaulting. -/
def finalize_test_case (tc : TestCase) : Except PyError TestCase :=
  match finalize_duration tc with
  | .ok tc1 => .ok (finalize_status tc1)
  | .error e => .error e

/-- Model of one iteration of the parse_log_file loop body, dispatching
on the decoded log entry.  A valid-JSON line that is not an object makes
the attribute access log_entry.get raise AttributeError. -/
def step (st : FoldState) (log_entry : JValue) : Except PyError FoldState :=
  match log_entry with
  | .obj kvs =>
    let event_type := dictGet kvs "event"
    if jStrEq event_type "run_header" then
      .ok { st with run_info := some (extract_run_header kvs) }
    else if jStrEq event_type "connection_opening" then
      .ok { st with current := some (initialize_test_case kvs) }
    else if jStrEq event_type "sent_request" then
      match st.current with
      | some tc =>
        match extract_request_data kvs with
        | .ok rd => .ok { st with current := some { tc with request := some rd } }
        | .error e => .error e
      | none => .ok st
    else if hasKey kvs "case" && hasKey kvs "frame" then
      match st.current with
      | some tc =>
        if pyEq (dictGet kvs "case") tc.name then
          match process_frame_data tc (dictGet kvs "frame") with
          | .ok tc2 => .ok { st with current := some tc2 }
          | .error e => .error e
        else .ok st
      | none => .ok st
    else if jStrEq event_type "connection_closed" then
      match st.current with
      | some tc =>
        match finalize_test_case { tc with end_time := dictGet kvs "ts" } with
        | .ok tc2 =>
          .ok { st with test_cases := st.test_cases ++ [tc2], current := none }
        | .error e => .error e
      | none => .ok st
    else if jStrEq event_type "client_error" || jStrEq event_type "client_timeout" then
      match st.current with
      | some tc =>
        .ok { st with current := some { tc with errors := tc.errors ++
          [{ type := if jStrEq event_type "client_error" then "client_error"
                     else "client_timeout",
             message := dictGetD kvs "error" (.str "Timeout occurred"),
             timestamp := dictGet kvs "ts", data := none }] } }
      | none => .ok st
    else .ok st
  | _ => .error .attributeError

/-- The loop of parse_log_file over the decoded lines: a line whose JSON
parse failed (none) is skipped by the except branch, every other line is
dispatched by step. -/
def runLines (st : FoldState) : List (Option JValue) → Except PyError FoldState
  | [] => .ok st
  | none :: rest => runLines st rest
  | some e :: rest =>
    match step st e with
    | .ok st1 => runLines st1 rest
    | .error err => .error err

/-- The initial loop state: empty run_info, no test cases, no open case. -/
def initialState : FoldState :=
  { run_info := none, test_cases := [], current := none }

/-- Model of parse_log_file: fold the loop over the lines (given as their
JSON parse outcomes) and return the results dict, dropping the loop-local
current case. -/
def parse_log_file (lines : List (Option JValue)) : Except PyError Results :=
  match runLines initialState lines with
  | .ok st => .ok { run_info := st.run_info, test_cases := st.test_cases }
  | .error e => .error e

/-- Truthiness of the duration entry of a test case, as tested by the
list comprehension in generate_summary: None and 0.0 are falsy. -/
def durTruthy (tc : TestCase) : Bool :=
  match tc.duration with
  | some q => q != 0
  | none => false

/-- Model of generate_summary: counts by status, success rate, total and
average duration, and the case names in order. -/
def generate_summary (results : Results) : Summary :=
  let test_cases := results.test_cases
  let total_tests := test_cases.length
  let successful_tests := (test_cases.filter fun tc => tc.status == "success").length
  let failed_tests := (test_cases.filter fun tc => tc.status == "error").length
  let incomplete_tests := (test_cases.filter fun tc => tc.status == "incomplete").length
  let total_duration := ((test_cases.filter durTruthy).map fun tc => tc.duration.getD 0).sum
  let average_duration := if total_tests > 0 then total_duration / (total_tests : Rat) else 0
  { total_tests := total_tests
    successful_tests := successful_tests
    failed_tests := failed_tests
    incomplete_tests := incomplete_tests
    success_rate := if total_tests > 0 then (successful_tests : Rat) / (total_tests : Rat) else 0
    total_duration := total_duration
    average_duration := average_duration
    test_names := test_cases.map TestCase.name }

/-! Shared lemmas. -/

def c1Line1 : JValue :=
  .obj [("event", .str "run_header"), ("ts", .str "2025-01-01T00:00:00Z"),
        ("endpoint_id", .str "default"), ("url", .str "ws://h/p")]

def c1Line2 : JValue :=
  .obj [("event", .str "connection_opening"), ("case", .str "T1"),
        ("session", .str "s1"), ("ts", .str "2025-01-01T00:00:00Z")]

def c1Line3 : JValue :=
  .obj [("case", .str "T1"), ("session", .str "s1"),
        ("frame", .obj [("status", .str "success"), ("message", .str "done"),
                        ("ts", .str "2025-01-01T00:00:02Z"),
                        ("data", .obj [("key_findings", .str "k")])])]

def c1Line4 : JValue :=
  .obj [("event", .str "connection_closed"), ("case", .str "T1"),
        ("session", .str "s1"), ("ts", .str "2025-01-01T00:00:02Z")]

def c1Lines : List (Option JValue) :=
  [some c1Line1, some c1Line2, some c1Line3, some c1Line4]

/-- The duration value computed for the example case, two seconds given
as the exact microsecond quotient produced by the subtraction model. -/
def c1Duration : Rat := ((2000000 : Int) : Rat) / 1000000

/-- The test case that the example run reconstructs. -/
def c1TC : TestCase :=
  { name := .str "T1"
    session_id := .str "s1"
    start_time := .str "2025-01-01T00:00:00Z"
    end_time := .str "2025-01-01T00:00:02Z"
    duration := some c1Duration
    status := "success"
    request := none
    responses := [{ status := .str "success", message := .str "done",
                    timestamp := .str "2025-01-01T00:00:02Z",
                    data := .obj [("key_findings", .str "k")] }]
    final_result := some
      { message := .str "done"
        timestamp := .str "2025-01-01T00:00:02Z"
        key_findings := .str "k"
        trends_anomalies := .null
        recommendations := .null
        data_quality := .null
        executive_summary := .null
        key_metrics := .null
        alerts := .null
        context := .null
        scores := { relevance := .null, completeness := .null, quality := .null }
        evaluation_notes := .null }
    errors := []
    progress_messages := [] }

/-- The full results value of the example run. -/
def c1Results : Results :=
  { run_info := some { timestamp := .str "2025-01-01T00:00:00Z",
                       endpoint_id := .str "default",
                       websocket_url := .str "ws://h/p" }
    test_cases := [c1TC] }

/-- Claim C1: the four log lines of the end-to-end example yield exactly
one test case named T1 with status success, duration 2.0 and
final_result.key_findings k, and a summary with total_tests 1,
successful_tests 1 and success_rate 1.0. -/
theorem C1_end_to_end :
    ∃ res tc, parse_log_file c1Lines = .ok res ∧
      res.test_cases = [tc] ∧
      tc.name = .str "T1" ∧
      tc.status = "success" ∧
      tc.duration = some 2 ∧
      tc.final_result.map FinalResult.key_findings = some (.str "k") ∧
      (generate_summary res).total_tests = 1 ∧
      (generate_summary res).successful_tests = 1 ∧
      (generate_summary res).success_rate = 1 := by
  refine ⟨c1Results, c1TC, rfl, rfl, rfl, rfl, ?_, rfl, rfl, rfl, ?_⟩
  · show some c1Duration = some 2
    rw [c1Duration]
    norm_num
  · show ((1 : Nat) : Rat) / ((1 : Nat) : Rat) = 1
    norm_num

/-! Claim C2: inputs exhibiting the failure of the claim as stated, and
the amended statement. -/

theorem sum_durations (tcs : List TestCase) :
    ((tcs.filter durTruthy).map fun tc => tc.duration.getD 0).sum =
      (tcs.filterMap TestCase.duration).sum := by
  induction tcs with
  | nil => rfl
  | cons tc rest ih =>
    rw [List.filter_cons, List.filterMap_cons]
    cases hd : tc.duration with
    | none => simp only [durTruthy, hd, if_false]; exact ih
    | some q =>
      by_cases hq : q = 0
      · subst hq
        simp [durTruthy, hd, ih]
      · simp [durTruthy, hd, hq, ih]

/-- Claim C3: total_duration is the sum of the durations of exactly the
cases with a non-null duration; success_rate is successful over total
when there are cases and 0 otherwise; average_duration divides
total_duration by the total case count (not the count of cases with a
duration), 0 when there are no cases. -/
theorem C3_summary_formulas (results : Results) :
    (generate_summary results).total_duration =
      (results.test_cases.filterMap TestCase.duration).sum ∧
    (results.test_cases.length ≠ 0 →
      (generate_summary results).success_rate =
        ((generate_summary results).successful_tests : Rat) /
          ((generate_summary results).total_tests : Rat)) ∧
    (results.test_cases.length = 0 → (generate_summary results).success_rate = 0) ∧
    (results.test_cases.length ≠ 0 →
      (generate_summary results).average_duration =
        (generate_summary results).total_duration /
          (results.test_cases.length : Rat)) ∧
    (results.test_cases.length = 0 →
      (generate_summary results).average_duration = 0) := by
  refine ⟨sum_durations results.test_cases, ?_, ?_, ?_, ?_⟩
  · intro h
    simp only [generate_summary]
    rw [if_pos (Nat.pos_of_ne_zero h)]
  · intro h
    simp only [generate_summary]
    rw [h]
    rfl
  · intro h
    simp only [generate_summary]
    rw [if_pos (Nat.pos_of_ne_zero h)]
  · intro h
    simp only [generate_summary]
    rw [h]
    rfl

def c3TCA : TestCase :=
  { initialize_test_case [("case", .str "A")] with
    status := "success", duration := some 3 }

def c3TCB : TestCase :=
  { initialize_test_case [("case", .str "B")] with status := "error" }

def c3Res : Results := { run_info := none, test_cases := [c3TCA, c3TCB] }

def c3Empty : Results := { run_info := none, test_cases := [] }

/-- Witness for claim C3 at concrete inputs: a two-case list (one case
with duration 3, one without) and the empty list. -/
theorem C3_witness :
    (generate_summary c3Res).total_duration = 3 ∧
    (generate_summary c3Res).success_rate =
      ((generate_summary c3Res).successful_tests : Rat) /
        ((generate_summary c3Res).total_tests : Rat) ∧
    (generate_summary c3Res).average_duration =
      (generate_summary c3Res).total_duration / (c3Res.test_cases.length : Rat) ∧
    (generate_summary c3Empty).success_rate = 0 ∧
    (generate_summary c3Empty).average_duration = 0 := by
  refine ⟨?_, (C3_summary_formulas c3Res).2.1 (by decide),
          (C3_summary_formulas c3Res).2.2.2.1 (by decide),
          (C3_summary_formulas c3Empty).2.2.1 rfl,
          (C3_summary_formulas c3Empty).2.2.2.2 rfl⟩
  rw [(C3_summary_formulas c3Res).1]
  show (3 : Rat) + 0 = 3
  norm_num

/-! Claim C4: status defaulting at close. -/

/-- Claim C9: generate_summary depends only on the test_cases list of its
input, mutates nothing (it is a pure function in this model, as the
source performs no writes), and therefore applying it twice to the same
unchanged list yields identical summaries. -/
theorem C9_aggregator_pure (r1 r2 : Results) (h : r1.test_cases = r2.test_cases) :
    generate_summary r1 = generate_summary r2 := by
  unfold generate_summary
  rw [h]

def c9TC : TestCase :=
  { initialize_test_case [("case", .str "X")] with status := "success" }

def c9ResA : Results := { run_info := none, test_cases := [c9TC] }

def c9ResB : Results :=
  { run_info := some { timestamp := .str "t", endpoint_id := .null,
                       websocket_url := .null },
    test_cases := [c9TC] }

/-- Witness for claim C9 at concrete inputs: two results values with the
same case list but different run_info get identical summaries. -/
theorem C9_witness : generate_summary c9ResA = generate_summary c9ResB :=
  C9_aggregator_pure c9ResA c9ResB rfl

/-! Claims C5, C6, C7: dispatch behavior of the reconstruction loop. -/

theorem jStrEq_eq_true_iff (v : JValue) (t : String) :
    jStrEq v t = true ↔ v = .str t := by
  cases v <;> simp [jStrEq]

/-- Claim C5: a connection_opening event replaces the current case
without flushing it: processing the event ignores the previously open
case entirely, so the whole remaining run from a state with an open case
equals the run with that case dropped, and the new state holds a freshly
initialized case with the old one discarded. -/
theorem C5_opening_discards (st : FoldState) (tc : TestCase)
    (kvs : List (String × JValue)) (rest : List (Option JValue))
    (hcur : st.current = some tc)
    (hev : jStrEq (dictGet kvs "event") "connection_opening" = true) :
    runLines st (some (.obj kvs) :: rest) =
      runLines { st with current := none } (some (.obj kvs) :: rest) ∧
    step st (.obj kvs) =
      .ok { st with current := some (initialize_test_case kvs) } := by
  have hv : dictGet kvs "event" = .str "connection_opening" :=
    (jStrEq_eq_true_iff _ _).mp hev
  have hstep : ∀ s : FoldState,
      step s (.obj kvs) = .ok { s with current := some (initialize_test_case kvs) } := by
    intro s
    unfold step
    simp [hv, jStrEq]
  refine ⟨?_, hstep st⟩
  simp only [runLines, hstep st, hstep { st with current := none }]

def c5TC : TestCase := initialize_test_case [("case", .str "OLD")]

def c5St : FoldState :=
  { run_info := none, test_cases := [], current := some c5TC }

def c5Open : List (String × JValue) :=
  [("event", .str "connection_opening"), ("case", .str "NEW")]

def c5Rest : List (Option JValue) :=
  [some (.obj [("event", .str "connection_closed"), ("ts", .null)])]

/-- Witness for claim C5 at a concrete input: opening a new case while
OLD is open gives the same run as if OLD had never been open. -/
theorem C5_witness :
    runLines c5St (some (.obj c5Open) :: c5Rest) =
      runLines { c5St with current := none } (some (.obj c5Open) :: c5Rest) ∧
    step c5St (.obj c5Open) =
      .ok { c5St with current := some (initialize_test_case c5Open) } :=
  C5_opening_discards c5St c5TC c5Open c5Rest rfl rfl

def c6Rec : List (String × JValue) :=
  [("event", .str "connection_opening"), ("case", .str "A"), ("frame", .obj [])]

/-- Claim C6 fails as stated: this record has both case and frame keys
and arrives when no case is open, yet the state changes, because its
event field is connection_opening and that dispatch branch is checked
before the frame-record branch. -/
theorem C6_counterexample :
    hasKey c6Rec "case" = true ∧ hasKey c6Rec "frame" = true ∧
    initialState.current = none ∧
    step initialState (.obj c6Rec) ≠ .ok initialState := by
  refine ⟨rfl, rfl, rfl, ?_⟩
  intro h
  have h2 : (step initialState (.obj c6Rec)).toOption.map FoldState.current =
      some none := by rw [h]; rfl
  rw [show (step initialState (.obj c6Rec)).toOption.map FoldState.current =
        some (some (initialize_test_case c6Rec)) from rfl] at h2
  exact Option.noConfusion (Option.some.inj h2)

/-- Claim C6 amended: a record carrying both case and frame keys, whose
event value is none of run_header, connection_opening and sent_request
(the dispatch branches checked earlier), leaves the state unchanged when
no case is open or when its case value is not equal to the open case's
name. -/
theorem C6_frame_mismatch_ignored (st : FoldState) (kvs : List (String × JValue))
    (hc : hasKey kvs "case" = true) (hf : hasKey kvs "frame" = true)
    (h1 : jStrEq (dictGet kvs "event") "run_header" = false)
    (h2 : jStrEq (dictGet kvs "event") "connection_opening" = false)
    (h3 : jStrEq (dictGet kvs "event") "sent_request" = false)
    (hm : st.current = none ∨
      ∃ tc, st.current = some tc ∧ pyEq (dictGet kvs "case") tc.name = false) :
    step st (.obj kvs) = .ok st := by
  unfold step
  simp only [h1, h2, h3, hc, hf, Bool.and_self, Bool.false_eq_true, if_false, if_true]
  rcases hm with hm | ⟨tc, hm, hne⟩ <;> rw [hm]
  simp only [hne, Bool.false_eq_true, if_false]

def c6TCB : TestCase := initialize_test_case [("case", .str "B")]

def c6St : FoldState :=
  { run_info := none, test_cases := [], current := some c6TCB }

def c6Frame : List (String × JValue) := [("case", .str "A"), ("frame", .obj [])]

/-- Witness for the amended claim C6 at a concrete input: a frame record
for case A while case B is open leaves the state unchanged. -/
theorem C6_witness : step c6St (.obj c6Frame) = .ok c6St :=
  C6_frame_mismatch_ignored c6St c6Frame rfl rfl rfl rfl rfl
    (Or.inr ⟨c6TCB, rfl, rfl⟩)

/-- Claim C7: lines whose JSON parse fails are skipped with no state
change and without raising: reconstructing any line sequence gives the
same outcome as reconstructing the subsequence of well-parsed lines, in
their original order. -/
theorem C7_malformed_skipped (lines : List (Option JValue)) :
    parse_log_file lines = parse_log_file ((lines.filterMap id).map some) := by
  suffices h : ∀ st, runLines st lines = runLines st ((lines.filterMap id).map some) by
    unfold parse_log_file
    rw [h initialState]
  induction lines with
  | nil => intro st; rfl
  | cons l rest ih =>
    intro st
    cases l with
    | none => exact ih st
    | some e =>
      show (match step st e with
            | .ok st1 => runLines st1 rest
            | .error err => .error err) =
           (match step st e with
            | .ok st1 => runLines st1 ((rest.filterMap id).map some)
            | .error err => .error err)
      rcases hs : step st e with err | st1 <;> simp only [hs]
      exact ih st1

/-! Claim C8: duplicate run_header events resolve last-write-wins. -/

/-- The payloads of all run_header events of the line sequence, in
order. -/
def runHeaders (lines : List (Option JValue)) : List (List (String × JValue)) :=
  lines.filterMap fun l =>
    match l with
    | some (.obj kvs) =>
      if jStrEq (dictGet kvs "event") "run_header" then some kvs else none
    | _ => none

theorem step_header (st : FoldState) (kvs : List (String × JValue))
    (hh : jStrEq (dictGet kvs "event") "run_header" = true) :
    step st (.obj kvs) = .ok { st with run_info := some (extract_run_header kvs) } := by
  unfold step
  dsimp only
  rw [if_pos hh]

theorem step_run_info (st st1 : FoldState) (kvs : List (String × JValue))
    (h : step st (.obj kvs) = .ok st1)
    (hne : jStrEq (dictGet kvs "event") "run_header" = false) :
    st1.run_info = st.run_info := by
  unfold step at h
  dsimp only at h
  rw [if_neg (by simp [hne])] at h
  repeat' split at h
  all_goals first
    | (cases h; rfl)
    | exact Except.noConfusion h

theorem getLast?_cons_of_getLast? {α : Type} (x a : α) (l : List α)
    (h : l.getLast? = some a) : (x :: l).getLast? = some a := by
  cases l with
  | nil => cases h
  | cons y t => rw [List.getLast?_cons_cons]; exact h

theorem runLines_run_info (lines : List (Option JValue)) :
    ∀ st fin1, runLines st lines = .ok fin1 →
      fin1.run_info = (match (runHeaders lines).getLast? with
                       | some kvs => some (extract_run_header kvs)
                       | none => st.run_info) := by
  induction lines with
  | nil => intro st fin1 h; cases h; rfl
  | cons l rest ih =>
    intro st fin1 h
    cases l with
    | none => exact ih st fin1 h
    | some e =>
      cases e with
      | obj kvs =>
        by_cases hh : jStrEq (dictGet kvs "event") "run_header" = true
        · rw [show runLines st (some (.obj kvs) :: rest) =
                (match step st (.obj kvs) with
                 | .ok st1 => runLines st1 rest
                 | .error err => .error err) from rfl,
              step_header st kvs hh] at h
          have ihh := ih _ fin1 h
          have hrh : runHeaders (some (.obj kvs) :: rest) = kvs :: runHeaders rest := by
            simp [runHeaders, hh]
          rw [hrh]
          rcases hlast : (runHeaders rest).getLast? with _ | kvs2 <;> rw [hlast] at ihh
          · have hnil : runHeaders rest = [] := by
              cases hr : runHeaders rest with
              | nil => rfl
              | cons a t => rw [hr] at hlast; simp [List.getLast?] at hlast
            rw [hnil]
            exact ihh
          · rw [getLast?_cons_of_getLast? kvs kvs2 _ hlast]
            exact ihh
        · rcases hs : step st (.obj kvs) with err | st1
          · rw [show runLines st (some (.obj kvs) :: rest) =
                  (match step st (.obj kvs) with
                   | .ok st1 => runLines st1 rest
                   | .error err => .error err) from rfl, hs] at h
            exact Except.noConfusion h
          · rw [show runLines st (some (.obj kvs) :: rest) =
                  (match step st (.obj kvs) with
                   | .ok st1 => runLines st1 rest
                   | .error err => .error err) from rfl, hs] at h
            have hpres := step_run_info st st1 kvs hs (by
              rw [Bool.not_eq_true] at hh; exact hh)
            have hrh : runHeaders (some (.obj kvs) :: rest) = runHeaders rest := by
              simp [runHeaders, hh]
            rw [hrh]
            have ihh := ih st1 fin1 h
            rcases hlast : (runHeaders rest).getLast? with _ | kvs2 <;> rw [hlast] at ihh
            · rw [ihh, hpres]
            · exact ihh
      | null => exact Except.noConfusion h
      | bool b => exact Except.noConfusion h
      | num q => exact Except.noConfusion h
      | str s => exact Except.noConfusion h
      | arr l2 => exact Except.noConfusion h

/-- Claim C8: when the input holds at least one run_header event and
reconstruction succeeds, run_info equals the extraction (timestamp,
endpoint_id, websocket_url) of the last run_header event in the log:
duplicate handling is last-write-wins. -/
theorem C8_last_run_header (lines : List (Option JValue)) (res : Results)
    (kvs : List (String × JValue))
    (h : parse_log_file lines = .ok res)
    (hlast : (runHeaders lines).getLast? = some kvs) :
    res.run_info = some (extract_run_header kvs) := by
  unfold parse_log_file at h
  rcases hr : runLines initialState lines with err | fin1 <;> rw [hr] at h
  · exact Except.noConfusion h
  · cases h
    have hinfo := runLines_run_info lines initialState fin1 hr
    rw [hlast] at hinfo
    exact hinfo

def c8Header2 : List (String × JValue) :=
  [("event", .str "run_header"), ("ts", .str "t2"), ("endpoint_id", .str "e2")]

def c8Lines : List (Option JValue) :=
  [some (.obj [("event", .str "run_header"), ("ts", .str "t1")]),
   some (.obj c8Header2)]

/-- Witness for claim C8 at a concrete input: with two run_header lines
the resulting run_info is the extraction of the second one. -/
theorem C8_witness :
    ∃ res, parse_log_file c8Lines = .ok res ∧
      res.run_info = some (extract_run_header c8Header2) :=
  ⟨_, rfl, C8_last_run_header c8Lines _ c8Header2 rfl rfl⟩

/-! Claim C10: session_id is dropped from the request snapshot. -/

theorem dictFind?_filter_ne (kvs : List (String × JValue)) (k s : String)
    (hne : k ≠ s) :
    dictFind? (kvs.filter fun kv => kv.1 != s) k = dictFind? kvs k := by
  induction kvs with
  | nil => rfl
  | cons p rest ih =>
    obtain ⟨k1, v⟩ := p
    rw [List.filter_cons]
    by_cases h1 : k1 = s
    · subst h1
      rw [if_neg (by simp)]
      rw [ih]
      rw [show dictFind? ((k1, v) :: rest) k =
            (match dictFind? rest k with
             | some w => some w
             | none => if k1 == k then some v else none) from rfl]
      cases hr : dictFind? rest k with
      | some w => rfl
      | none =>
        have hkk : (k1 == k) = false := by
          simp only [beq_eq_false_iff_ne]
          exact fun hk => hne hk.symm
        rw [hkk]
        simp
    · rw [if_pos (by simp [h1])]
      rw [show dictFind? ((k1, v) :: (rest.filter fun kv => kv.1 != s)) k =
            (match dictFind? (rest.filter fun kv => kv.1 != s) k with
             | some w => some w
             | none => if k1 == k then some v else none) from rfl,
          show dictFind? ((k1, v) :: rest) k =
            (match dictFind? rest k with
             | some w => some w
             | none => if k1 == k then some v else none) from rfl,
          ih]

theorem dictGet_filter_ne (kvs : List (String × JValue)) (k s : String)
    (hne : k ≠ s) :
    dictGet (kvs.filter fun kv => kv.1 != s) k = dictGet kvs k := by
  unfold dictGet
  rw [dictFind?_filter_ne kvs k s hne]

theorem dictGetD_filter_ne (kvs : List (String × JValue)) (k s : String)
    (d : JValue) (hne : k ≠ s) :
    dictGetD (kvs.filter fun kv => kv.1 != s) k d = dictGetD kvs k d := by
  unfold dictGetD
  rw [dictFind?_filter_ne kvs k s hne]

theorem filter_unrecognized_erase (kvs : List (String × JValue)) :
    ((kvs.filter fun kv => kv.1 != "session_id").filter
        fun kv => !(requestKeys.contains kv.1)) =
      kvs.filter fun kv => !(requestKeys.contains kv.1) := by
  induction kvs with
  | nil => rfl
  | cons p rest ih =>
    obtain ⟨k1, v⟩ := p
    rw [List.filter_cons, List.filter_cons]
    by_cases h1 : k1 = "session_id"
    · subst h1
      have ha : ((("session_id" : String), v).1 != "session_id") = false := by
        dsimp only
        rfl
      have hb : (!requestKeys.contains (("session_id" : String), v).1) = false := by
        dsimp only
        rfl
      rw [if_neg (by rw [ha]; exact Bool.false_ne_true),
          if_neg (by rw [hb]; exact Bool.false_ne_true)]
      exact ih
    · rw [if_pos (by simp [h1]), List.filter_cons]
      by_cases h2 : requestKeys.contains k1 = true
      · have hcc : (!requestKeys.contains (k1, v).1) = false := by
          dsimp only
          rw [h2]
          rfl
        rw [if_neg (by rw [hcc]; exact Bool.false_ne_true),
            if_neg (by rw [hcc]; exact Bool.false_ne_true)]
        exact ih
      · rw [Bool.not_eq_true] at h2
        have hcc : (!requestKeys.contains (k1, v).1) = true := by
          dsimp only
          rw [h2]
          rfl
        rw [if_pos hcc, if_pos hcc, ih]

/-- Claim C10: a session_id key in the request payload is dropped
entirely from the extracted snapshot: the extraction equals the
extraction of the payload with all session_id entries erased (so it
appears neither as a named field nor in additional_params), while every
entry whose key is outside the recognized set is kept in
additional_params. -/
theorem C10_session_id_dropped (entry kvs : List (String × JValue))
    (h : dictFind? entry "request" = some (.obj kvs)) :
    ∃ rd, extract_request_data entry = .ok rd ∧
      rd = extract_request_fields (kvs.filter fun kv => kv.1 != "session_id") ∧
      (∀ p ∈ rd.additional_params, p.1 ≠ "session_id") ∧
      (∀ k v, (k, v) ∈ kvs → requestKeys.contains k = false →
        (k, v) ∈ rd.additional_params) := by
  refine ⟨extract_request_fields kvs, ?_, ?_, ?_, ?_⟩
  · unfold extract_request_data
    rw [h]
  · unfold extract_request_fields
    rw [dictGet_filter_ne kvs "prompt" "session_id" (by decide),
        dictGet_filter_ne kvs "env_id" "session_id" (by decide),
        dictGet_filter_ne kvs "where" "session_id" (by decide),
        dictGet_filter_ne kvs "when" "session_id" (by decide),
        dictGetD_filter_ne kvs "metricFilters" "session_id" _ (by decide),
        dictGetD_filter_ne kvs "useVectorSearch" "session_id" _ (by decide),
        filter_unrecognized_erase kvs]
  · intro p hp
    have hmem := List.of_mem_filter hp
    intro hps
    rw [hps] at hmem
    exact absurd hmem (by decide)
  · intro k v hmem hfree
    refine List.mem_filter.mpr ⟨hmem, ?_⟩
    dsimp only
    rw [hfree]
    rfl

def c10Payload : List (String × JValue) :=
  [("prompt", .str "p"), ("session_id", .str "s"), ("extra", .num 7)]

def c10Entry : List (String × JValue) :=
  [("event", .str "sent_request"), ("request", .obj c10Payload)]

/-- Witness for claim C10 at a concrete input: a payload holding prompt,
session_id and one unrecognized key. -/
theorem C10_witness :
    ∃ rd, extract_request_data c10Entry = .ok rd ∧
      rd = extract_request_fields (c10Payload.filter fun kv => kv.1 != "session_id") ∧
      (∀ p ∈ rd.additional_params, p.1 ≠ "session_id") ∧
      (∀ k v, (k, v) ∈ c10Payload → requestKeys.contains k = false →
        (k, v) ∈ rd.additional_params) :=
  C10_session_id_dropped c10Entry c10Payload rfl

end ConsumeLogs
